import Mathlib

set_option autoImplicit false

/-!
Shallow embedding of `src/backend/server.js` (Soko e-commerce backend).
Each definition mirrors one route handler or schema of the Express server;
MongoDB collections are modelled as lists in insertion order, `findOne` as
`List.find?` on that order, and in-place document mutation followed by
`save()` as replacement of the first matching document.
-/

namespace Soko

/-- JS dynamic values, as far as the request-body validation needs them.
`num` models integer-valued JS numbers; `undef` is `undefined`. -/
inductive JSVal where
  | undef
  | null
  | bool (b : Bool)
  | num (n : Int)
  | str (s : String)
  deriving DecidableEq

/-- JS truthiness: `undefined`, `null`, `false`, `0` and the empty string are falsy. -/
def jsTruthy : JSVal → Bool
  | .undef => false
  | .null => false
  | .bool b => b
  | .num n => n != 0
  | .str s => s != ""

/-- Decimal digit value of a character, if it is one. -/
def charDigit (c : Char) : Option Nat :=
  if 48 ≤ c.toNat ∧ c.toNat ≤ 57 then some (c.toNat - 48) else none

/-- Read a non-empty all-digit character list as a natural number. -/
def parseNat (cs : List Char) : Option Nat :=
  if cs = [] then none
  else
    cs.foldl
      (fun acc c =>
        match acc, charDigit c with
        | some n, some d => some (n * 10 + d)
        | _, _ => none)
      (some 0)

/-- JS `ToNumber` on a string: the empty string is 0, an optionally
negated decimal integer literal is its value, anything else is `NaN`. -/
def strToNumber (s : String) : Option Int :=
  match s.data with
  | [] => some 0
  | c :: cs =>
    if c = Char.ofNat 45 then (parseNat cs).map (fun n => -(n : Int))
    else (parseNat (c :: cs)).map (fun n => (n : Int))

/-- JS `ToNumber` coercion on such values; `none` is `NaN`.
`null` coerces to 0, booleans to 0/1, strings via `strToNumber`. -/
def jsToNumber : JSVal → Option Int
  | .undef => none
  | .null => some 0
  | .bool b => some (if b then 1 else 0)
  | .num n => some n
  | .str s => strToNumber s

/-- The JS comparison `v <= 0`: numeric coercion, and any comparison with `NaN` is false. -/
def jsLeZero (v : JSVal) : Bool :=
  match jsToNumber v with
  | none => false
  | some n => decide (n ≤ 0)

/-- `server.js` line 282: the POST /api/cart reject condition
`!productId || !quantity || quantity <= 0`. -/
def cartAddRejected (productId quantity : JSVal) : Bool :=
  !jsTruthy productId || !jsTruthy quantity || jsLeZero quantity

/-- A JS value that is a (strictly) positive number. -/
def isPositiveNum : JSVal → Bool
  | .num n => decide (0 < n)
  | _ => false

/-! ## Schemas (server.js lines 49-96).  Mongo `_id`s are modelled as strings. -/

/-- `userSchema`: name, unique email, hashed password, role defaulting to "buyer"
(a plain String — the schema declares no enum). -/
structure UserDoc where
  id : String
  name : String
  email : String
  password : String
  role : String
  deriving DecidableEq

/-- `productSchema`. -/
structure ProductDoc where
  id : String
  name : String
  price : Int
  description : Option String
  image : Option String
  category : Option String
  discount : Int
  featured : Bool
  createdBy : String
  deriving DecidableEq

/-- One entry of `cartSchema.products`: a (product reference, quantity) line. -/
structure CartLine where
  product : String
  quantity : Int
  deriving DecidableEq

/-- `cartSchema`: owning user and the line collection. -/
structure CartDoc where
  user : String
  products : List CartLine
  deriving DecidableEq

/-- One entry of `orderSchema.items`. -/
structure OrderItem where
  product : String
  quantity : Int
  deriving DecidableEq

/-- `orderSchema` (creation timestamp omitted: no claim mentions it). -/
structure OrderDoc where
  user : String
  items : List OrderItem
  deriving DecidableEq

/-- `bannerSchema`. -/
structure BannerDoc where
  image : String
  title : Option String
  subtitle : Option String
  link : Option String
  active : Bool
  order : Int
  deriving DecidableEq

/-- The whole database: one list per collection, in insertion order. -/
structure Store where
  users : List UserDoc
  products : List ProductDoc
  carts : List CartDoc
  orders : List OrderDoc
  banners : List BannerDoc
  deriving DecidableEq

def emptyStore : Store := ⟨[], [], [], [], []⟩

/-! ## Auth middleware (server.js lines 101-112). -/

def spaceChar : Char := Char.ofNat 32

/-- JS `String.prototype.split(" ")`: split on every single space,
keeping empty segments (header strings are modelled as `List Char`). -/
def splitOnSpace : List Char → List (List Char)
  | [] => [[]]
  | c :: cs =>
    if c = spaceChar then [] :: splitOnSpace cs
    else
      match splitOnSpace cs with
      | [] => [[c]]
      | w :: ws => (c :: w) :: ws

/-- `req.header('Authorization')?.split(" ")[1]` followed by the `!token` check:
the token is the second space-separated segment, and a missing or empty
segment counts as no token. -/
def headerToken (h : Option (List Char)) : Option (List Char) :=
  match h with
  | none => none
  | some s =>
    match (splitOnSpace s)[1]? with
    | none => none
    | some t => if t = [] then none else some t

inductive AuthResult where
  | noToken
  | invalidToken
  | authed (id role : String)
  deriving DecidableEq

/-- The `auth` middleware: extract the token, 401 if absent, otherwise verify
(`jwt.verify` modelled as an oracle returning the decoded id and role). -/
def auth (h : Option (List Char)) (verify : List Char → Option (String × String)) : AuthResult :=
  match headerToken h with
  | none => .noToken
  | some t =>
    match verify t with
    | none => .invalidToken
    | some (i, r) => .authed i r

/-! ## POST /api/register (server.js lines 117-135). -/

inductive RegisterResult where
  | missingFields
  | emailTaken
  | created
  deriving DecidableEq

/-- The register handler.  `newId` models the generated Mongo id and `hash`
models `bcrypt.hash`.  Absent body fields are `none`; `!name || !email ||
!password` also rejects empty strings.  The stored role is the body's `role`
when present, else the schema default "buyer". -/
def register (s : Store) (newId : String) (name email password role : Option String)
    (hash : String → String) : RegisterResult × Store :=
  match name, email, password with
  | some n, some e, some pw =>
    if n == "" || e == "" || pw == "" then (.missingFields, s)
    else if (s.users.find? (fun u => u.email == e)).isSome then (.emailTaken, s)
    else (.created, { s with users := s.users ++ [⟨newId, n, e, hash pw, role.getD "buyer"⟩] })
  | _, _, _ => (.missingFields, s)

/-! ## POST /api/login (server.js lines 137-159). -/

inductive LoginResult where
  | missingFields
  | userNotFound
  | wrongPassword
  | token (id role : String)
  deriving DecidableEq

/-- The login handler; `compare` models `bcrypt.compare`. -/
def login (s : Store) (email password : Option String)
    (compare : String → String → Bool) : LoginResult :=
  match email, password with
  | some e, some pw =>
    if e == "" || pw == "" then .missingFields
    else
      match s.users.find? (fun u => u.email == e) with
      | none => .userNotFound
      | some u => if compare pw u.password then .token u.id u.role else .wrongPassword
  | _, _ => .missingFields

/-- The HTTP status each login outcome is sent with (lines 140, 143, 146, 154). -/
def loginStatus : LoginResult → Nat
  | .missingFields => 400
  | .userNotFound => 400
  | .wrongPassword => 400
  | .token _ _ => 200

/-! ## GET /api/products/featured (server.js lines 174-182). -/

/-- `Product.find({ featured: true }).limit(8)`. -/
def listFeatured (s : Store) : List ProductDoc :=
  (s.products.filter (fun p => p.featured)).take 8

/-! ## Role-gated handlers (server.js lines 184-253 and 345-370). -/

/-- `["admin", "poster"].includes(req.user.role)`. -/
def roleAllowed (role : String) : Bool :=
  role == "admin" || role == "poster"

inductive HandlerResult (α : Type) where
  | forbidden
  | badRequest
  | notFound
  | ok (a : α)
  deriving DecidableEq

/-- Line 192: `featured === true || featured === "true" || featured === 1 || featured === "1"`. -/
def coerceFeatured (v : JSVal) : Bool :=
  v == .bool true || v == .str "true" || v == .num 1 || v == .str "1"

/-- POST /api/products: role gate, then `!name || price === undefined`,
then insert the new product with `discount || 0` and the coerced featured flag. -/
def createProduct (s : Store) (role uid newId : String) (name : Option String)
    (price : Option Int) (description image category : Option String)
    (discount : Option Int) (featured : JSVal) : HandlerResult ProductDoc × Store :=
  if !roleAllowed role then (.forbidden, s)
  else
    match name, price with
    | some n, some pr =>
      if n == "" then (.badRequest, s)
      else
        let p : ProductDoc :=
          ⟨newId, n, pr, description, image, category, discount.getD 0, coerceFeatured featured, uid⟩
        (.ok p, { s with products := s.products ++ [p] })
    | _, _ => (.badRequest, s)

/-- Replace the featured flag of the first product with the given id
(`findByIdAndUpdate`). -/
def updateFeatured : List ProductDoc → String → Bool → List ProductDoc
  | [], _, _ => []
  | p :: ps, pid, b =>
    if p.id == pid then { p with featured := b } :: ps
    else p :: updateFeatured ps pid b

/-- PUT /api/products/:id/featured: role gate, `typeof featured !== "boolean"`
check, then `findByIdAndUpdate` returning the updated document or 404. -/
def setFeatured (s : Store) (role pid : String) (featured : JSVal) :
    HandlerResult ProductDoc × Store :=
  if !roleAllowed role then (.forbidden, s)
  else
    match featured with
    | .bool b =>
      match s.products.find? (fun p => p.id == pid) with
      | none => (.notFound, s)
      | some p => (.ok { p with featured := b }, { s with products := updateFeatured s.products pid b })
    | _ => (.badRequest, s)

/-- Remove the first product with the given id (`findByIdAndDelete`). -/
def removeProduct : List ProductDoc → String → List ProductDoc
  | [], _ => []
  | p :: ps, pid => if p.id == pid then ps else p :: removeProduct ps pid

/-- DELETE /api/products/:id: role gate, then delete-by-id or 404. -/
def deleteProduct (s : Store) (role pid : String) : HandlerResult Unit × Store :=
  if !roleAllowed role then (.forbidden, s)
  else if (s.products.find? (fun p => p.id == pid)).isSome then
    (.ok (), { s with products := removeProduct s.products pid })
  else (.notFound, s)

/-- POST /api/banner: role gate, `!image` check, then insert with
`active !== undefined ? active : true` and `order || 0`. -/
def createBanner (s : Store) (role : String) (image title subtitle link : Option String)
    (active : Option Bool) (order : Option Int) : HandlerResult BannerDoc × Store :=
  if !roleAllowed role then (.forbidden, s)
  else
    match image with
    | some img =>
      if img == "" then (.badRequest, s)
      else
        let b : BannerDoc := ⟨img, title, subtitle, link, active.getD true, order.getD 0⟩
        (.ok b, { s with banners := s.banners ++ [b] })
    | none => (.badRequest, s)

/-! ## GET /api/banner (server.js lines 334-343). -/

/-- Head of the stable sort by ascending `order` of a banner list: the earliest
banner whose `order` is minimal (`findOne(...).sort({ order: 1 })`). -/
def minOrderBanner : List BannerDoc → Option BannerDoc
  | [] => none
  | b :: bs =>
    match minOrderBanner bs with
    | none => some b
    | some b2 => some (if b.order ≤ b2.order then b else b2)

/-- `Banner.findOne({ active: true }).sort({ order: 1 })`; `none` is the 404 case. -/
def getActiveBanner (s : Store) : Option BannerDoc :=
  minOrderBanner (s.banners.filter (fun b => b.active))

/-! ## Cart routes (server.js lines 279-329). -/

/-- `Cart.findOne({ user: u })`: first cart of that user. -/
def findCart (carts : List CartDoc) (u : String) : Option CartDoc :=
  carts.find? (fun c => c.user == u)

/-- Mutate the first cart of user `u` to have line collection `L` and save it. -/
def setCartLines : List CartDoc → String → List CartLine → List CartDoc
  | [], _, _ => []
  | c :: cs, u, L =>
    if c.user == u then { c with products := L } :: cs
    else c :: setCartLines cs u L

/-- Lines 290-295: `findIndex` on the product reference; if found, increment
that line's quantity; otherwise push a new line. -/
def addLine : List CartLine → String → Int → List CartLine
  | [], p, q => [⟨p, q⟩]
  | l :: ls, p, q =>
    if l.product == p then { l with quantity := l.quantity + q } :: ls
    else l :: addLine ls p q

/-- POST /api/cart after validation: create a one-line cart when the user has
none, otherwise add-or-merge into the existing cart. -/
def addToCart (s : Store) (u p : String) (q : Int) : Store :=
  match findCart s.carts u with
  | none => { s with carts := s.carts ++ [⟨u, [⟨p, q⟩]⟩] }
  | some c => { s with carts := setCartLines s.carts u (addLine c.products p q) }

/-- DELETE /api/cart/:productId: 404 (`none`) when the user has no cart,
otherwise keep the lines whose product differs (`filter(p => p.product
.toString() !== productId)`). -/
def removeFromCart (s : Store) (u p : String) : Option Store :=
  match findCart s.carts u with
  | none => none
  | some c =>
    some { s with carts := setCartLines s.carts u (c.products.filter (fun l => l.product != p)) }

/-! ## POST /api/orders (server.js lines 375-399). -/

inductive OrderResult where
  | cartEmpty
  | created (o : OrderDoc)
  deriving DecidableEq

/-- The order handler: 400 when the user has no cart or it has no lines;
otherwise save an order copying every cart line, then empty the cart's line
collection and save it. -/
def placeOrder (s : Store) (u : String) : OrderResult × Store :=
  match findCart s.carts u with
  | none => (.cartEmpty, s)
  | some c =>
    if c.products.isEmpty then (.cartEmpty, s)
    else
      let o : OrderDoc := ⟨u, c.products.map (fun l => ⟨l.product, l.quantity⟩)⟩
      (.created o, { s with orders := s.orders ++ [o], carts := setCartLines s.carts u [] })

/-! ## Sample data for witnesses. -/

def hashDemo : String → String := fun pw => pw ++ ".hashed"

def prodDemo : ProductDoc := ⟨"p1", "Phone", 100, none, none, none, 0, true, "u1"⟩

def storeDemo : Store := { emptyStore with products := [prodDemo] }

/-! ## C6: featured listing. -/

/-- C6: for every store state, `listFeatured` (GET /api/products/featured)
returns at most 8 products and every returned product has `featured = true`. -/
theorem listFeatured_spec (s : Store) :
    (listFeatured s).length ≤ 8 ∧ ∀ p ∈ listFeatured s, p.featured = true := by
  constructor
  · exact List.length_take_le 8 (s.products.filter (fun p => p.featured))
  · intro p hp
    have hmem := List.mem_of_mem_take hp
    simpa using (List.mem_filter.mp hmem).2

/-- Witness for C6 at a concrete one-product store. -/
theorem listFeatured_witness :
    (listFeatured storeDemo).length ≤ 8 ∧ prodDemo.featured = true :=
  ⟨(listFeatured_spec storeDemo).1, (listFeatured_spec storeDemo).2 prodDemo (by decide)⟩

/-! ## C4: add-to-cart validation. -/

/-- The literal reading of claim C4: POST /api/cart validation fails exactly
when `productId` is missing/falsy or `quantity` is not a positive number. -/
def cartValidationClaim : Prop :=
  ∀ productId quantity : JSVal,
    cartAddRejected productId quantity = true ↔
      (jsTruthy productId = false ∨ isPositiveNum quantity = false)

/-- C4 counterexample: with `productId = "p1"` and `quantity` the string "3",
the quantity is not a number, so the claim demands rejection, but the check
`!productId || !quantity || quantity <= 0` accepts it ("3" is truthy and
coerces to 3, which is not ≤ 0). -/
theorem cartAdd_validation_cex : ¬ cartValidationClaim := by
  intro h
  have h2 := (h (.str "p1") (.str "3")).mpr (Or.inr (by decide))
  exact absurd h2 (by decide)

/-- C4 amended: validation rejects exactly the JS-falsy or coerced-nonpositive
quantities — every positive-number quantity with a truthy productId passes,
every non-positive number, falsy quantity or falsy productId is rejected, but
a truthy non-number quantity whose numeric coercion is not ≤ 0 (for example
the string "3") also passes. -/
theorem cartAdd_validation_spec :
    (∀ (pid : JSVal) (q : Int), jsTruthy pid = true → 0 < q →
        cartAddRejected pid (.num q) = false) ∧
    (∀ (pid : JSVal) (q : Int), q ≤ 0 → cartAddRejected pid (.num q) = true) ∧
    (∀ pid q : JSVal, jsTruthy pid = false → cartAddRejected pid q = true) ∧
    (∀ pid q : JSVal, jsTruthy q = false → cartAddRejected pid q = true) ∧
    cartAddRejected (.str "p1") (.str "3") = false := by
  refine ⟨?_, ?_, ?_, ?_, by decide⟩
  · intro pid q hpid hq
    have h1 : jsLeZero (.num q) = false := by
      simp [jsLeZero, jsToNumber]
      omega
    have h2 : jsTruthy (.num q) = true := by
      simp [jsTruthy]
      omega
    simp [cartAddRejected, hpid, h1, h2]
  · intro pid q hq
    have h1 : jsLeZero (.num q) = true := by
      simp [jsLeZero, jsToNumber, hq]
    simp [cartAddRejected, h1]
  · intro pid q hpid
    simp [cartAddRejected, hpid]
  · intro pid q hq
    simp [cartAddRejected, hq]

/-- Witness for C4's amended theorem at concrete inputs. -/
theorem cartAdd_validation_witness :
    cartAddRejected (.str "p1") (.num 2) = false ∧
    cartAddRejected (.str "p1") (.num 0) = true ∧
    cartAddRejected .undef (.num 2) = true ∧
    cartAddRejected (.str "p1") .null = true :=
  ⟨cartAdd_validation_spec.1 (.str "p1") 2 (by decide) (by decide),
   cartAdd_validation_spec.2.1 (.str "p1") 0 (by decide),
   cartAdd_validation_spec.2.2.1 .undef (.num 2) (by decide),
   cartAdd_validation_spec.2.2.2.1 (.str "p1") .null (by decide)⟩

/-! ## C5: login with unknown email. -/

/-- The literal reading of claim C5: a login whose email matches no user is
surfaced with HTTP status 404. -/
def loginNotFoundClaim : Prop :=
  ∀ (s : Store) (e pw : String) (compare : String → String → Bool),
    e ≠ "" → pw ≠ "" → s.users.find? (fun u => u.email == e) = none →
    loginStatus (login s (some e) (some pw) compare) = 404

/-- C5 counterexample: on the empty store, login with an unknown email is
answered with status 400 (`res.status(400).json({ message: "User not
found" })`, server.js line 143), not 404. -/
theorem login_notfound_cex : ¬ loginNotFoundClaim := by
  intro h
  have h2 := h emptyStore "ann@soko.test" "pw" (fun _ _ => false)
      (by decide) (by decide) (by decide)
  revert h2
  decide

/-- C5 amended: login with an email matching no user fails with the
"User not found" outcome, surfaced as HTTP status 400 (not 404). -/
theorem login_notfound_spec (s : Store) (e pw : String) (compare : String → String → Bool)
    (he : e ≠ "") (hpw : pw ≠ "")
    (hfind : s.users.find? (fun u => u.email == e) = none) :
    login s (some e) (some pw) compare = .userNotFound ∧
    loginStatus (login s (some e) (some pw) compare) = 400 := by
  have hrun : login s (some e) (some pw) compare = .userNotFound := by
    simp [login, he, hpw, hfind]
  exact ⟨hrun, by rw [hrun]; rfl⟩

/-- Witness for C5's amended theorem on the empty store. -/
theorem login_notfound_witness :
    login emptyStore (some "ann@soko.test") (some "pw") (fun _ _ => false) = .userNotFound ∧
    loginStatus (login emptyStore (some "ann@soko.test") (some "pw") (fun _ _ => false)) = 400 :=
  login_notfound_spec emptyStore "ann@soko.test" "pw" (fun _ _ => false)
    (by decide) (by decide) (by decide)

/-! ## C3: stored roles. -/

/-- The literal reading of claim C3's consequence for `register` (the only
operation that stores users): every user present after a register call was
already stored or has one of the three enumerated roles. -/
def registerRolesClaim : Prop :=
  ∀ (s : Store) (newId : String) (name email password role : Option String)
    (hash : String → String),
    ∀ u ∈ (register s newId name email password role hash).2.users,
      u ∈ s.users ∨ u.role = "buyer" ∨ u.role = "admin" ∨ u.role = "poster"

/-- C3 counterexample: registering on the empty store with role "superuser"
succeeds and stores role "superuser" — the schema declares no enum and the
handler passes the body's role through verbatim. -/
theorem register_role_cex : ¬ registerRolesClaim := by
  intro h
  have h2 := h emptyStore "u1" (some "Ann") (some "ann@soko.test") (some "pw")
      (some "superuser") hashDemo
      ⟨"u1", "Ann", "ann@soko.test", hashDemo "pw", "superuser"⟩ (by decide)
  revert h2
  decide

/-- C3 amended: register with the role argument unspecified stores role
"buyer" (the schema default); register with a provided role stores that
string verbatim, so stored roles are not restricted to the three enumerated
values. -/
theorem register_role_spec :
    (∀ (s : Store) (newId n e pw : String) (hash : String → String),
        n ≠ "" → e ≠ "" → pw ≠ "" → s.users.find? (fun u => u.email == e) = none →
        (register s newId (some n) (some e) (some pw) none hash).2.users =
          s.users ++ [⟨newId, n, e, hash pw, "buyer"⟩]) ∧
    (∀ (s : Store) (newId n e pw r : String) (hash : String → String),
        n ≠ "" → e ≠ "" → pw ≠ "" → s.users.find? (fun u => u.email == e) = none →
        (register s newId (some n) (some e) (some pw) (some r) hash).2.users =
          s.users ++ [⟨newId, n, e, hash pw, r⟩]) := by
  constructor
  · intro s newId n e pw hash hn he hpw hfind
    simp [register, hn, he, hpw, hfind]
  · intro s newId n e pw r hash hn he hpw hfind
    simp [register, hn, he, hpw, hfind]

/-- Witness for C3's amended theorem: default role and verbatim role at
concrete inputs. -/
theorem register_role_witness :
    (register emptyStore "u1" (some "Ann") (some "ann@soko.test") (some "pw") none
        hashDemo).2.users = [⟨"u1", "Ann", "ann@soko.test", hashDemo "pw", "buyer"⟩] ∧
    (register emptyStore "u2" (some "Bob") (some "bob@soko.test") (some "pw") (some "admin")
        hashDemo).2.users = [⟨"u2", "Bob", "bob@soko.test", hashDemo "pw", "admin"⟩] :=
  ⟨register_role_spec.1 emptyStore "u1" "Ann" "ann@soko.test" "pw" hashDemo
      (by decide) (by decide) (by decide) (by decide),
   register_role_spec.2 emptyStore "u2" "Bob" "bob@soko.test" "pw" "admin" hashDemo
      (by decide) (by decide) (by decide) (by decide)⟩

/-! ## C7: active banner lookup. -/

theorem lemma_minOrderBanner_eq_none (L : List BannerDoc) :
    minOrderBanner L = none ↔ L = [] := by
  cases L with
  | nil => simp [minOrderBanner]
  | cons a as =>
    simp only [minOrderBanner]
    cases hrec : minOrderBanner as <;> simp

theorem lemma_minOrderBanner_mem_min (L : List BannerDoc) (b : BannerDoc)
    (h : minOrderBanner L = some b) : b ∈ L ∧ ∀ c ∈ L, b.order ≤ c.order := by
  induction L generalizing b with
  | nil => simp [minOrderBanner] at h
  | cons a as ih =>
    rw [minOrderBanner] at h
    cases hrec : minOrderBanner as with
    | none =>
      rw [hrec] at h
      injection h with h
      subst h
      have has : as = [] := (lemma_minOrderBanner_eq_none as).mp hrec
      subst has
      simp
    | some m =>
      rw [hrec] at h
      injection h with h
      obtain ⟨hm, hmin⟩ := ih m hrec
      by_cases hcmp : b.order ≤ m.order
      all_goals by_cases hab : a.order ≤ m.order
      all_goals simp [hab] at h
      all_goals subst h
      · refine ⟨List.mem_cons_self a as, ?_⟩
        intro c hc
        rcases List.mem_cons.mp hc with rfl | hc2
        · exact le_refl _
        · exact le_trans hab (hmin c hc2)
      · refine ⟨List.mem_cons_of_mem a hm, ?_⟩
        intro c hc
        rcases List.mem_cons.mp hc with rfl | hc2
        · omega
        · exact hmin c hc2
      · exact absurd hab hcmp
      · refine ⟨List.mem_cons_of_mem a hm, ?_⟩
        intro c hc
        rcases List.mem_cons.mp hc with rfl | hc2
        · omega
        · exact hmin c hc2

/-- C7: GET /api/banner returns `none` (404) exactly when no banner is
active, and otherwise a stored banner that is active and whose `order` is
minimal among all active banners. -/
theorem banner_active_spec (s : Store) :
    (getActiveBanner s = none ↔ ∀ b ∈ s.banners, b.active = false) ∧
    (∀ b, getActiveBanner s = some b →
      b.active = true ∧ b ∈ s.banners ∧
        ∀ b2 ∈ s.banners, b2.active = true → b.order ≤ b2.order) := by
  constructor
  · rw [getActiveBanner, lemma_minOrderBanner_eq_none, List.filter_eq_nil_iff]
    constructor
    · intro h b hb
      have := h b hb
      simpa using this
    · intro h b hb
      simp [h b hb]
  · intro b hb
    obtain ⟨hmem, hmin⟩ := lemma_minOrderBanner_mem_min _ b hb
    have hf := List.mem_filter.mp hmem
    refine ⟨hf.2, hf.1, ?_⟩
    intro b2 hb2 hact
    exact hmin b2 (List.mem_filter.mpr ⟨hb2, hact⟩)

def bannerDemoA : BannerDoc := ⟨"a.png", none, none, none, true, 5⟩

def bannerDemoB : BannerDoc := ⟨"b.png", none, none, none, true, 2⟩

def storeBannersDemo : Store := { emptyStore with banners := [bannerDemoA, bannerDemoB] }

/-- Witness for C7 on a store with two active banners of orders 5 and 2:
the lookup returns the order-2 banner and it is minimal. -/
theorem banner_active_witness :
    bannerDemoB.active = true ∧ bannerDemoB ∈ storeBannersDemo.banners ∧
      ∀ b2 ∈ storeBannersDemo.banners, b2.active = true →
        bannerDemoB.order ≤ b2.order :=
  (banner_active_spec storeBannersDemo).2 bannerDemoB (by decide)

/-! ## C8: role gates. -/

theorem lemma_roleAllowed_false (role : String)
    (h : ¬(role = "admin" ∨ role = "poster")) : roleAllowed role = false := by
  obtain ⟨h1, h2⟩ := not_or.mp h
  simp [roleAllowed, h1, h2]

theorem lemma_roleAllowed_true (role : String)
    (h : role = "admin" ∨ role = "poster") : roleAllowed role = true := by
  rcases h with rfl | rfl <;> simp [roleAllowed]

/-- C8: each of the four role-gated handlers (product creation, featured
toggle, product deletion, banner creation) answers Forbidden and leaves the
store unchanged whenever the caller's role is neither "admin" nor "poster",
and with role "admin" or "poster" and otherwise-valid input it succeeds. -/
theorem role_gate_spec :
    (∀ (s : Store) (role uid newId : String) (name : Option String) (price : Option Int)
        (description image category : Option String) (discount : Option Int) (featured : JSVal),
        ¬(role = "admin" ∨ role = "poster") →
        createProduct s role uid newId name price description image category discount featured =
          (.forbidden, s)) ∧
    (∀ (s : Store) (role pid : String) (featured : JSVal),
        ¬(role = "admin" ∨ role = "poster") → setFeatured s role pid featured = (.forbidden, s)) ∧
    (∀ (s : Store) (role pid : String),
        ¬(role = "admin" ∨ role = "poster") → deleteProduct s role pid = (.forbidden, s)) ∧
    (∀ (s : Store) (role : String) (image title subtitle link : Option String)
        (active : Option Bool) (order : Option Int),
        ¬(role = "admin" ∨ role = "poster") →
        createBanner s role image title subtitle link active order = (.forbidden, s)) ∧
    (∀ (s : Store) (role uid newId n : String) (pr : Int)
        (description image category : Option String) (discount : Option Int) (featured : JSVal),
        (role = "admin" ∨ role = "poster") → n ≠ "" →
        ∃ p, (createProduct s role uid newId (some n) (some pr) description image category
            discount featured).1 = .ok p) ∧
    (∀ (s : Store) (role pid : String) (b : Bool) (p0 : ProductDoc),
        (role = "admin" ∨ role = "poster") →
        s.products.find? (fun p => p.id == pid) = some p0 →
        (setFeatured s role pid (.bool b)).1 = .ok { p0 with featured := b }) ∧
    (∀ (s : Store) (role pid : String),
        (role = "admin" ∨ role = "poster") →
        (s.products.find? (fun p => p.id == pid)).isSome = true →
        (deleteProduct s role pid).1 = .ok ()) ∧
    (∀ (s : Store) (role img : String) (title subtitle link : Option String)
        (active : Option Bool) (order : Option Int),
        (role = "admin" ∨ role = "poster") → img ≠ "" →
        ∃ b, (createBanner s role (some img) title subtitle link active order).1 = .ok b) := by
  refine ⟨?_, ?_, ?_, ?_, ?_, ?_, ?_, ?_⟩
  · intro s role uid newId name price description image category discount featured h
    simp [createProduct, lemma_roleAllowed_false role h]
  · intro s role pid featured h
    simp [setFeatured, lemma_roleAllowed_false role h]
  · intro s role pid h
    simp [deleteProduct, lemma_roleAllowed_false role h]
  · intro s role image title subtitle link active order h
    simp [createBanner, lemma_roleAllowed_false role h]
  · intro s role uid newId n pr description image category discount featured h hn
    refine ⟨⟨newId, n, pr, description, image, category, discount.getD 0,
        coerceFeatured featured, uid⟩, ?_⟩
    simp [createProduct, lemma_roleAllowed_true role h, hn]
  · intro s role pid b p0 h hfind
    simp [setFeatured, lemma_roleAllowed_true role h, hfind]
  · intro s role pid h hfind
    simp [deleteProduct, lemma_roleAllowed_true role h, hfind]
  · intro s role img title subtitle link active order h himg
    refine ⟨⟨img, title, subtitle, link, active.getD true, order.getD 0⟩, ?_⟩
    simp [createBanner, lemma_roleAllowed_true role h, himg]

/-- Witness for C8: a "buyer" is refused with the store untouched, while an
"admin" and a "poster" succeed on the same valid inputs. -/
theorem role_gate_witness :
    createProduct emptyStore "buyer" "u1" "p9" (some "Phone") (some 100)
        none none none none .undef = (.forbidden, emptyStore) ∧
    setFeatured storeDemo "buyer" "p1" (.bool true) = (.forbidden, storeDemo) ∧
    deleteProduct storeDemo "buyer" "p1" = (.forbidden, storeDemo) ∧
    createBanner emptyStore "buyer" (some "a.png") none none none none none =
      (.forbidden, emptyStore) ∧
    (∃ p, (createProduct emptyStore "admin" "u1" "p9" (some "Phone") (some 100)
        none none none none .undef).1 = .ok p) ∧
    (setFeatured storeDemo "admin" "p1" (.bool false)).1 =
      .ok { prodDemo with featured := false } ∧
    (deleteProduct storeDemo "poster" "p1").1 = .ok () ∧
    (∃ b, (createBanner emptyStore "poster" (some "a.png") none none none none
        none).1 = .ok b) :=
  ⟨role_gate_spec.1 emptyStore "buyer" "u1" "p9" (some "Phone") (some 100)
      none none none none .undef (by decide),
   role_gate_spec.2.1 storeDemo "buyer" "p1" (.bool true) (by decide),
   role_gate_spec.2.2.1 storeDemo "buyer" "p1" (by decide),
   role_gate_spec.2.2.2.1 emptyStore "buyer" (some "a.png") none none none none none (by decide),
   role_gate_spec.2.2.2.2.1 emptyStore "admin" "u1" "p9" "Phone" 100
      none none none none .undef (Or.inl rfl) (by decide),
   role_gate_spec.2.2.2.2.2.1 storeDemo "admin" "p1" false prodDemo (Or.inl rfl) (by decide),
   role_gate_spec.2.2.2.2.2.2.1 storeDemo "poster" "p1" (Or.inr rfl) (by decide),
   role_gate_spec.2.2.2.2.2.2.2 emptyStore "poster" "a.png" none none none none none
      (Or.inr rfl) (by decide)⟩

/-! ## Cart bookkeeping lemmas shared by C1, C2 and C9. -/

theorem lemma_findCart_setCartLines (carts : List CartDoc) (u : String) (c : CartDoc)
    (L : List CartLine) (h : findCart carts u = some c) :
    findCart (setCartLines carts u L) u = some { c with products := L } := by
  induction carts with
  | nil => simp [findCart] at h
  | cons a as ih =>
    by_cases hu : a.user = u
    · rw [findCart, List.find?_cons_of_pos _ (by simp [hu])] at h
      injection h with h
      subst h
      have hset : setCartLines (a :: as) u L = { a with products := L } :: as := by
        simp [setCartLines, hu]
      rw [hset, findCart, List.find?_cons_of_pos _ (by simp [hu])]
    · rw [findCart, List.find?_cons_of_neg _ (by simp [hu])] at h
      have hset : setCartLines (a :: as) u L = a :: setCartLines as u L := by
        simp [setCartLines, hu]
      rw [hset, findCart, List.find?_cons_of_neg _ (by simp [hu])]
      exact ih h

theorem lemma_setCartLines_twice (carts : List CartDoc) (u : String) (L1 L2 : List CartLine) :
    setCartLines (setCartLines carts u L1) u L2 = setCartLines carts u L2 := by
  induction carts with
  | nil => simp [setCartLines]
  | cons a as ih => by_cases hu : a.user = u <;> simp [setCartLines, hu, ih]

theorem lemma_setCartLines_self (carts : List CartDoc) (u : String) (c : CartDoc)
    (h : findCart carts u = some c) : setCartLines carts u c.products = carts := by
  induction carts with
  | nil => simp [findCart] at h
  | cons a as ih =>
    by_cases hu : a.user = u
    · rw [findCart, List.find?_cons_of_pos _ (by simp [hu])] at h
      injection h with h
      subst h
      simp [setCartLines, hu]
      rw [← hu]
    · rw [findCart, List.find?_cons_of_neg _ (by simp [hu])] at h
      simp [setCartLines, hu, ih h]

theorem lemma_findCart_append (carts : List CartDoc) (u : String) (c0 : CartDoc)
    (h : findCart carts u = none) (hu : c0.user = u) :
    findCart (carts ++ [c0]) u = some c0 := by
  induction carts with
  | nil => simp [findCart, List.find?, hu]
  | cons a as ih =>
    by_cases ha : a.user = u
    · rw [findCart, List.find?_cons_of_pos _ (by simp [ha])] at h
      exact absurd h (by simp)
    · rw [findCart, List.find?_cons_of_neg _ (by simp [ha])] at h
      rw [List.cons_append, findCart, List.find?_cons_of_neg _ (by simp [ha])]
      exact ih h

theorem lemma_addLine_new (lines : List CartLine) (p : String) (q : Int)
    (h : ∀ l ∈ lines, l.product ≠ p) : addLine lines p q = lines ++ [⟨p, q⟩] := by
  induction lines with
  | nil => simp [addLine]
  | cons l ls ih =>
    have hl : l.product ≠ p := h l (List.mem_cons_self l ls)
    have hls : ∀ x ∈ ls, x.product ≠ p := fun x hx => h x (List.mem_cons_of_mem l hx)
    simp [addLine, hl, ih hls]

theorem lemma_addLine_merge (pre post : List CartLine) (l0 : CartLine) (p : String) (q : Int)
    (hpre : ∀ l ∈ pre, l.product ≠ p) (hl0 : l0.product = p) :
    addLine (pre ++ l0 :: post) p q =
      pre ++ { l0 with quantity := l0.quantity + q } :: post := by
  induction pre with
  | nil => simp [addLine, hl0]
  | cons l ls ih =>
    have hl : l.product ≠ p := hpre l (List.mem_cons_self l ls)
    have hls : ∀ x ∈ ls, x.product ≠ p := fun x hx => hpre x (List.mem_cons_of_mem l hx)
    simp [addLine, hl, ih hls]

/-! ## C1: order placement. -/

/-- C1: POST /api/orders fails when the user has no cart or the cart has no
lines (leaving the store unchanged), and otherwise creates and persists an
order copying exactly the cart's (product, quantity) lines, after which the
user's cart still exists and has zero lines. -/
theorem placeOrder_spec :
    (∀ (s : Store) (u : String),
        findCart s.carts u = none → placeOrder s u = (.cartEmpty, s)) ∧
    (∀ (s : Store) (u : String) (c : CartDoc),
        findCart s.carts u = some c → c.products = [] → placeOrder s u = (.cartEmpty, s)) ∧
    (∀ (s : Store) (u : String) (c : CartDoc),
        findCart s.carts u = some c → c.products ≠ [] →
        (placeOrder s u).1 =
            .created ⟨u, c.products.map (fun l => ⟨l.product, l.quantity⟩)⟩ ∧
        (placeOrder s u).2.orders =
            s.orders ++ [⟨u, c.products.map (fun l => ⟨l.product, l.quantity⟩)⟩] ∧
        findCart (placeOrder s u).2.carts u = some { c with products := [] }) := by
  refine ⟨?_, ?_, ?_⟩
  · intro s u h
    simp [placeOrder, h]
  · intro s u c h hempty
    simp [placeOrder, h, hempty]
  · intro s u c h hne
    have hempty : c.products.isEmpty = false := by
      simp [List.isEmpty_iff, hne]
    refine ⟨by simp [placeOrder, h, hempty], by simp [placeOrder, h, hempty], ?_⟩
    simp only [placeOrder, h, hempty]
    simpa using lemma_findCart_setCartLines s.carts u c [] h

def cartDemo : CartDoc := ⟨"u1", [⟨"p1", 2⟩, ⟨"p2", 1⟩]⟩

def storeCartDemo : Store := { emptyStore with carts := [cartDemo] }

/-- Witness for C1 on a concrete two-line cart. -/
theorem placeOrder_witness :
    (placeOrder emptyStore "u1" = (.cartEmpty, emptyStore)) ∧
    (placeOrder storeCartDemo "u1").1 = .created ⟨"u1", [⟨"p1", 2⟩, ⟨"p2", 1⟩]⟩ ∧
    (placeOrder storeCartDemo "u1").2.orders = [⟨"u1", [⟨"p1", 2⟩, ⟨"p2", 1⟩]⟩] ∧
    findCart (placeOrder storeCartDemo "u1").2.carts "u1" = some ⟨"u1", []⟩ :=
  ⟨placeOrder_spec.1 emptyStore "u1" (by decide),
   (placeOrder_spec.2.2 storeCartDemo "u1" cartDemo (by decide) (by decide)).1,
   (placeOrder_spec.2.2 storeCartDemo "u1" cartDemo (by decide) (by decide)).2.1,
   (placeOrder_spec.2.2 storeCartDemo "u1" cartDemo (by decide) (by decide)).2.2⟩

/-! ## C2: add-or-merge. -/

/-- C2: adding a product already in the cart increments that line's quantity
(no overwrite, no duplicate), adding a new product appends a line, and the
concrete sequence add 2 then add 3 of the same product leaves exactly one
line for it, with quantity 5, whether or not the user already had a cart. -/
theorem cart_merge_spec :
    (∀ (lines : List CartLine) (p : String) (q : Int),
        (∀ l ∈ lines, l.product ≠ p) → addLine lines p q = lines ++ [⟨p, q⟩]) ∧
    (∀ (pre post : List CartLine) (l0 : CartLine) (p : String) (q : Int),
        (∀ l ∈ pre, l.product ≠ p) → l0.product = p →
        addLine (pre ++ l0 :: post) p q =
          pre ++ { l0 with quantity := l0.quantity + q } :: post) ∧
    (∀ (s : Store) (u p : String) (c : CartDoc),
        findCart s.carts u = some c → (∀ l ∈ c.products, l.product ≠ p) →
        ∃ c2, findCart (addToCart (addToCart s u p 2) u p 3).carts u = some c2 ∧
          c2.products.filter (fun l => l.product == p) = [⟨p, 5⟩]) ∧
    (∀ (s : Store) (u p : String),
        findCart s.carts u = none →
        findCart (addToCart (addToCart s u p 2) u p 3).carts u = some ⟨u, [⟨p, 5⟩]⟩) := by
  refine ⟨lemma_addLine_new, lemma_addLine_merge, ?_, ?_⟩
  · intro s u p c h hnone
    have h1 : addToCart s u p 2 =
        { s with carts := setCartLines s.carts u (c.products ++ [⟨p, 2⟩]) } := by
      simp [addToCart, h, lemma_addLine_new c.products p 2 hnone]
    have h2 : findCart (addToCart s u p 2).carts u =
        some { c with products := c.products ++ [⟨p, 2⟩] } := by
      rw [h1]
      exact lemma_findCart_setCartLines s.carts u c _ h
    have h3 : addLine (c.products ++ [⟨p, 2⟩]) p 3 = c.products ++ [⟨p, 5⟩] := by
      have := lemma_addLine_merge c.products [] ⟨p, 2⟩ p 3 hnone rfl
      simpa using this
    refine ⟨{ c with products := c.products ++ [⟨p, 5⟩] }, ?_, ?_⟩
    · rw [addToCart, h2, h1]
      simp only [h3]
      rw [lemma_setCartLines_twice]
      simpa using lemma_findCart_setCartLines s.carts u c (c.products ++ [⟨p, 5⟩]) h
    · have hfil : c.products.filter (fun l => l.product == p) = [] := by
        rw [List.filter_eq_nil_iff]
        intro l hl
        simp [hnone l hl]
      simp [List.filter_append, hfil]
  · intro s u p h
    have h1 : addToCart s u p 2 = { s with carts := s.carts ++ [⟨u, [⟨p, 2⟩]⟩] } := by
      simp [addToCart, h]
    have h2 : findCart (addToCart s u p 2).carts u = some ⟨u, [⟨p, 2⟩]⟩ := by
      rw [h1]
      exact lemma_findCart_append s.carts u ⟨u, [⟨p, 2⟩]⟩ h rfl
    have h3 : addLine [⟨p, 2⟩] p 3 = [⟨p, 5⟩] := by
      simp [addLine]
    rw [addToCart, h2, h1]
    simp only [h3]
    have := lemma_findCart_setCartLines (s.carts ++ [⟨u, [⟨p, 2⟩]⟩]) u ⟨u, [⟨p, 2⟩]⟩ [⟨p, 5⟩]
      (by rw [h1] at h2; exact h2)
    simpa using this

/-- Witness for C2: both merge scenarios at concrete inputs. -/
theorem cart_merge_witness :
    addLine [⟨"p2", 1⟩] "p1" 2 = [⟨"p2", 1⟩, ⟨"p1", 2⟩] ∧
    addLine [⟨"p2", 1⟩, ⟨"p1", 2⟩] "p1" 3 = [⟨"p2", 1⟩, ⟨"p1", 5⟩] ∧
    findCart (addToCart (addToCart emptyStore "u1" "p1" 2) "u1" "p1" 3).carts "u1" =
      some ⟨"u1", [⟨"p1", 5⟩]⟩ :=
  ⟨cart_merge_spec.1 [⟨"p2", 1⟩] "p1" 2 (by decide),
   cart_merge_spec.2.1 [⟨"p2", 1⟩] [] ⟨"p1", 2⟩ "p1" 3 (by decide) rfl,
   cart_merge_spec.2.2.2 emptyStore "u1" "p1" (by decide)⟩

/-! ## C9: line removal. -/

/-- C9: DELETE /api/cart/:productId fails with NotFound when the user has no
cart; removing a product with no line in the cart returns the whole store
unchanged (a no-op); and removal is idempotent — a second removal of the
same product returns the same store. -/
theorem removeLine_spec :
    (∀ (s : Store) (u p : String),
        findCart s.carts u = none → removeFromCart s u p = none) ∧
    (∀ (s : Store) (u p : String) (c : CartDoc),
        findCart s.carts u = some c → (∀ l ∈ c.products, l.product ≠ p) →
        removeFromCart s u p = some s) ∧
    (∀ (s s1 : Store) (u p : String),
        removeFromCart s u p = some s1 → removeFromCart s1 u p = some s1) := by
  refine ⟨?_, ?_, ?_⟩
  · intro s u p h
    simp [removeFromCart, h]
  · intro s u p c h hnone
    have hfil : c.products.filter (fun l => l.product != p) = c.products := by
      rw [List.filter_eq_self]
      intro l hl
      simp [hnone l hl]
    simp only [removeFromCart, h, hfil, lemma_setCartLines_self s.carts u c h]
  · intro s s1 u p h
    rw [removeFromCart] at h
    cases hc : findCart s.carts u with
    | none => rw [hc] at h; exact absurd h (by simp)
    | some c =>
      rw [hc] at h
      injection h with h
      subst h
      have hfind : findCart (setCartLines s.carts u
          (c.products.filter (fun l => l.product != p))) u =
          some { c with products := c.products.filter (fun l => l.product != p) } :=
        lemma_findCart_setCartLines s.carts u c _ hc
      rw [removeFromCart]
      simp only [hfind]
      have hfil : (c.products.filter (fun l => l.product != p)).filter
          (fun l => l.product != p) = c.products.filter (fun l => l.product != p) := by
        rw [List.filter_eq_self]
        intro l hl
        exact (List.mem_filter.mp hl).2
      simp only [hfil, lemma_setCartLines_twice]

/-- Witness for C9 at concrete stores: no cart, absent line, and idempotence. -/
theorem removeLine_witness :
    removeFromCart emptyStore "u1" "p1" = none ∧
    removeFromCart storeCartDemo "u1" "p9" = some storeCartDemo ∧
    removeFromCart { emptyStore with carts := [⟨"u1", [⟨"p2", 1⟩]⟩] } "u1" "p1" =
      some { emptyStore with carts := [⟨"u1", [⟨"p2", 1⟩]⟩] } :=
  ⟨removeLine_spec.1 emptyStore "u1" "p1" (by decide),
   removeLine_spec.2.1 storeCartDemo "u1" "p9" cartDemo (by decide) (by decide),
   removeLine_spec.2.2 { emptyStore with carts := [⟨"u1", [⟨"p2", 1⟩]⟩] }
     { emptyStore with carts := [⟨"u1", [⟨"p2", 1⟩]⟩] } "u1" "p1" (by decide)⟩

/-! ## C10: the auth middleware and the scheme word. -/

theorem lemma_splitOnSpace_no_space (t : List Char) (h : spaceChar ∉ t) :
    splitOnSpace t = [t] := by
  induction t with
  | nil => rfl
  | cons c cs ih =>
    have hc : ¬c = spaceChar := fun e => h (e ▸ List.mem_cons_self c cs)
    have hcs : spaceChar ∉ cs := fun m => h (List.mem_cons_of_mem c m)
    simp [splitOnSpace, hc, ih hcs]

theorem lemma_splitOnSpace_append (w t : List Char) (h : spaceChar ∉ w) :
    splitOnSpace (w ++ spaceChar :: t) = w :: splitOnSpace t := by
  induction w with
  | nil => simp [splitOnSpace]
  | cons c cs ih =>
    have hc : ¬c = spaceChar := fun e => h (e ▸ List.mem_cons_self c cs)
    have hcs : spaceChar ∉ cs := fun m => h (List.mem_cons_of_mem c m)
    simp [splitOnSpace, hc, ih hcs]

/-- C10: the middleware never inspects the scheme word — a header made of any
space-free first word, a space, and a token authenticates exactly like
"Bearer " followed by the same token; and a header that is just a bare token
(no word and space before it) is rejected as missing-token. -/
theorem auth_scheme_spec :
    (∀ (w t : List Char) (verify : List Char → Option (String × String)),
        spaceChar ∉ w → spaceChar ∉ t →
        auth (some (w ++ spaceChar :: t)) verify =
          auth (some ("Bearer".data ++ spaceChar :: t)) verify) ∧
    (∀ (t : List Char) (verify : List Char → Option (String × String)),
        spaceChar ∉ t → auth (some t) verify = .noToken) := by
  constructor
  · intro w t verify hw ht
    have hB : spaceChar ∉ "Bearer".data := by decide
    rw [auth, auth, headerToken, headerToken,
        lemma_splitOnSpace_append w t hw, lemma_splitOnSpace_append _ t hB,
        lemma_splitOnSpace_no_space t ht]
    simp
  · intro t verify ht
    rw [auth, headerToken, lemma_splitOnSpace_no_space t ht]
    simp

def verifyDemo : List Char → Option (String × String) :=
  fun t => if t = "tok123".data then some ("u1", "buyer") else none

/-- Witness for C10: a "Basic"-scheme header authenticates like the "Bearer"
one, and the bare token is rejected. -/
theorem auth_scheme_witness :
    auth (some ("Basic".data ++ spaceChar :: "tok123".data)) verifyDemo =
      auth (some ("Bearer".data ++ spaceChar :: "tok123".data)) verifyDemo ∧
    auth (some "tok123".data) verifyDemo = .noToken :=
  ⟨auth_scheme_spec.1 "Basic".data "tok123".data verifyDemo (by decide) (by decide),
   auth_scheme_spec.2 "tok123".data verifyDemo (by decide)⟩

end Soko
